import Mathlib

/-!
# dockAPI — shallow embedding of the Managed Container Gateway

This file embeds the core of the dockAPI repository in Lean 4:

* `src/app/docker_service.py` — the Registry View (`_container_info`),
  volume-spec parsing (`_parse_volumes`) and host-port selection in
  `run_container`;
* `src/docker_service.py` — the older duplicate `run_container`
  host-port selection;
* `src/app/main.py` — the reverse-proxy dispatcher (`proxy`,
  `_filter_headers`) and the readiness gate (`_wait_ready`).

Python strings are Lean `String`s, Python `dict`s are insertion-ordered
association lists, byte bodies are modelled as `String`s, and library
behaviour the code relies on (`int()`, `str.rsplit`, `urllib.parse.urljoin`,
the `httpx` redirect-following client) is embedded for the fragment the
code exercises, as documented on each definition.
-/

/-! ## String primitives

All inputs this program manipulates are ASCII, so Python string
operations are embedded as character-list operations (`String.data`),
which compute by plain structural recursion. -/

/-- Python `str.lower()` on ASCII text. -/
def strLower (s : String) : String := String.mk (s.data.map Char.toLower)

/-- Python `str.upper()` on ASCII text. -/
def strUpper (s : String) : String := String.mk (s.data.map Char.toUpper)

def charsStartWith : List Char → List Char → Bool
  | _, [] => true
  | [], _ :: _ => false
  | c :: cs, p :: ps => c = p && charsStartWith cs ps

/-- Python `str.startswith`. -/
def strStartsWith (s pre : String) : Bool := charsStartWith s.data pre.data

def splitOnCharAux (sep : Char) : List Char → List Char → List (List Char)
  | [], acc => [acc.reverse]
  | c :: rest, acc =>
    if c = sep then acc.reverse :: splitOnCharAux sep rest []
    else splitOnCharAux sep rest (c :: acc)

/-- Python `str.split(sep)` for a one-character separator: the segments
between occurrences of the separator (the empty string splits to one
empty segment, as in Python). -/
def splitOnChar (sep : Char) (cs : List Char) : List (List Char) :=
  splitOnCharAux sep cs []

/-- Whitespace as stripped by Python `int()` (space, tab, newline,
carriage return cover every input in this development). -/
def isSpaceChar (c : Char) : Bool :=
  c = ' ' || c = '\t' || c = '\n' || c = '\r'

/-- Python `str.strip()` on both ends. -/
def pyStrip (cs : List Char) : List Char :=
  ((cs.dropWhile isSpaceChar).reverse.dropWhile isSpaceChar).reverse

/-! ## Python `int()` on decimal strings

`pyInt s` models `int(s)` for a decimal string: surrounding whitespace is
stripped, an optional single `+`/`-` sign is accepted, and the remainder
must be a nonempty run of ASCII digits; otherwise `int` raises and we
return `none`.  (Digit-group underscores are not modelled; no input in
this development uses them.) -/
def digitsVal (cs : List Char) : Option Nat :=
  if cs.isEmpty then none
  else
    cs.foldl
      (fun acc c =>
        match acc with
        | none => none
        | some n => if c.isDigit then some (n * 10 + (c.toNat - 48)) else none)
      (some 0)

def pyInt (s : String) : Option Int :=
  match pyStrip s.data with
  | '-' :: rest => (digitsVal rest).map fun n => -(n : Int)
  | '+' :: rest => (digitsVal rest).map fun n => (n : Int)
  | cs => (digitsVal cs).map fun n => (n : Int)

/-! ## Registry View: `DockerService._container_info`

A raw inspection record carries the pieces `_container_info` reads:
`c.id`, `c.name`, `attrs["Config"]["Image"]`, `c.status`, `c.labels`,
and `attrs["NetworkSettings"]["Ports"]`.  A `Ports` entry maps a
`"<port>/tcp"` key to a list of bindings (a `null` value in the real
record behaves exactly like the empty list under the code's
`if bindings:` truthiness test, so both are the empty list here);
each binding may or may not carry a `"HostPort"` string. -/

def PORT_LABEL : String := "dockapi.container_port"

structure Binding where
  hostPort : Option String
deriving DecidableEq

structure RawRecord where
  id : String
  name : String
  image : Option String
  status : String
  labels : List (String × String)
  ports : List (String × List Binding)
deriving DecidableEq

structure Descriptor where
  id : String
  name : String
  image : Option String
  status : String
  labels : List (String × String)
  host_port : Option Int
  container_port : Option Int
deriving DecidableEq

/-- `c.labels.get(PORT_LABEL)` followed by the guarded
`int(...) if ... else None` inside `try/except`: an absent label, an
empty label (falsy) or an unparsable label all give `None`. -/
def parsedContainerPort (labels : List (String × String)) : Option Int :=
  match labels.lookup PORT_LABEL with
  | none => none
  | some s => if s = "" then none else pyInt s

/-- `attrs["NetworkSettings"]["Ports"].get(key)` followed by
`if bindings: bindings[0]` — the first binding, when the lookup produced
a nonempty list. -/
def firstBinding (ports : List (String × List Binding)) (key : String) :
    Option Binding :=
  match ports.lookup key with
  | some (b :: _) => some b
  | _ => none

/-- `DockerService._container_info` (src/app/docker_service.py lines
109–136; identically src/docker_service.py lines 101–128).  The label
parse is wrapped in `try/except`, but `int(bindings[0].get("HostPort"))`
is NOT: a first binding whose `HostPort` is missing (`int(None)`,
a `TypeError`) or non-numeric (`ValueError`) raises out of the method,
which we model as `.error`. -/
def containerInfo (r : RawRecord) : Except String Descriptor :=
  let cp := parsedContainerPort r.labels
  let hostPortE : Except String (Option Int) :=
    match cp with
    | some n =>
      if n ≠ 0 then
        -- Python `if container_port:` — truthy only for a nonzero int
        match firstBinding r.ports (toString n ++ "/tcp") with
        | some b =>
          match b.hostPort with
          | some hs =>
            match pyInt hs with
            | some hp => .ok (some hp)
            | none => .error "ValueError: invalid literal for int()"
          | none => .error "TypeError: int() argument must not be None"
        | none => .ok none
      else .ok none
    | none => .ok none
  hostPortE.map fun hp =>
    { id := r.id, name := r.name, image := r.image, status := r.status,
      labels := r.labels, host_port := hp, container_port := cp }

/-! ## Host-port selection in the two `run_container` implementations -/

/-- Whether `run_container` calls `self._reserve_port()` or uses the
caller-supplied port. -/
inductive PortChoice where
  | reserveFresh
  | useGiven (p : Int)
deriving DecidableEq

/-- src/docker_service.py lines 64–65: `if host_port is None:
host_port = self._reserve_port()`. -/
def selectHostPortRoot (host_port : Option Int) : PortChoice :=
  match host_port with
  | none => .reserveFresh
  | some p => .useGiven p

/-- src/app/docker_service.py lines 67–68: `if host_port is None or
int(host_port) == 0: host_port = self._reserve_port()`. -/
def selectHostPortApp (host_port : Option Int) : PortChoice :=
  match host_port with
  | none => .reserveFresh
  | some p => if p = 0 then .reserveFresh else .useGiven p

/-! ## URLs and `urllib.parse.urljoin`

The dispatcher builds its upstream URL with
`urljoin(f"http://127.0.0.1:{host_port}/", path)`.  A URL is modelled by
its scheme, its authority (netloc) and the rest (path, possibly with a
query).  `urljoinHttp` embeds the fragment of `urljoin` exercised here,
per RFC 3986 reference resolution as CPython implements it for an
`http` base: a reference with its own scheme keeps that scheme's netloc
(for an `http` reference the netloc, when present, replaces the base's);
a network-path reference (leading `//`) replaces the authority; anything
else keeps the base authority and merges paths.  Dot-segment
normalisation is not modelled (no input here contains dot segments). -/

structure Url where
  scheme : String
  authority : String
  rest : String
deriving DecidableEq

def schemeChar (c : Char) : Bool :=
  c.isAlpha || c.isDigit || c = '+' || c = '-' || c = '.'

/-- Scheme detection as in `urlsplit`: a leading alphabetic character,
a run of scheme characters, then a colon. -/
def splitScheme (s : String) : Option (String × String) :=
  match s.data with
  | [] => none
  | c :: _ =>
    if c.isAlpha then
      let pre := s.data.takeWhile schemeChar
      let rest := s.data.drop pre.length
      match rest with
      | ':' :: rest2 => some (strLower (String.mk pre), String.mk rest2)
      | _ => none
    else none

/-- The authority of a network-path reference: everything up to the next
slash, question mark or hash. -/
def takeAuthority (s : String) : String × String :=
  let a := s.data.takeWhile fun c => !(c = '/' || c = '?' || c = '#')
  (String.mk a, String.mk (s.data.drop a.length))

/-- The base path up to and including its last slash. -/
def dirOf (p : String) : String :=
  String.mk (p.data.reverse.dropWhile (fun c => c ≠ '/')).reverse

def mergePath (bpath : String) (ref : String) : String :=
  if ref = "" then bpath
  else if strStartsWith ref "/" then ref
  else dirOf bpath ++ ref

def joinNoScheme (base : Url) (ref : String) : Url :=
  if strStartsWith ref "//" then
    let ar := takeAuthority (String.mk (ref.data.drop 2))
    { scheme := base.scheme, authority := ar.1, rest := ar.2 }
  else
    { scheme := base.scheme, authority := base.authority,
      rest := mergePath base.rest ref }

def urljoinHttp (base : Url) (refStr : String) : Url :=
  match splitScheme refStr with
  | some (sch, rest) =>
    if sch = "http" then joinNoScheme base rest
    else if strStartsWith rest "//" then
      let ar := takeAuthority (String.mk (rest.data.drop 2))
      { scheme := sch, authority := ar.1, rest := ar.2 }
    else { scheme := sch, authority := "", rest := rest }
  | none => joinNoScheme base refStr

/-! ## Headers and the hop-by-hop filter (`_filter_headers`) -/

/-- The fixed exclusion set of src/app/main.py lines 203–212. -/
def hopByHop : List String :=
  ["connection", "proxy-connection", "keep-alive", "transfer-encoding",
   "te", "trailer", "upgrade", "host"]

/-- `_filter_headers` (src/app/main.py lines 202–213): keep the pairs
whose lowercased name is not in the hop-by-hop set. -/
def filterHeaders (hs : List (String × String)) : List (String × String) :=
  hs.filter fun kv => !(hopByHop.contains (strLower kv.1))

/-- Case-insensitive header lookup, as `httpx.Headers.get` on the
lowercase name used by the code. -/
def getHeader (hs : List (String × String)) (n : String) : Option String :=
  (hs.find? fun kv => strLower kv.1 = n).map fun kv => kv.2

/-! ## The httpx client used by `proxy`

The dispatcher calls `httpx.AsyncClient(follow_redirects=True, timeout=60)`.
A transport failure is an `httpx.HTTPError` carrying a message.  With
`follow_redirects=True` the client chases 3xx responses that carry a
`Location` header (resolved against the current URL), up to httpx's
default `max_redirects = 20`, after which it raises `TooManyRedirects`
(itself an `httpx.HTTPError`); a 303 switches any non-HEAD method to GET
and drops the body, as does a 301/302 on a POST. -/

structure TransportError where
  msg : String
deriving DecidableEq

structure Resp where
  status : Nat
  headers : List (String × String)
  body : String
deriving DecidableEq

structure Req where
  method : String
  url : Url
  params : List (String × String)
  body : String
  headers : List (String × String)
deriving DecidableEq

def isRedirect (r : Resp) : Bool :=
  (r.status = 301 || r.status = 302 || r.status = 303 ||
   r.status = 307 || r.status = 308) && (getHeader r.headers "location").isSome

def redirectTarget (cur : Req) (r : Resp) : Req :=
  let loc := (getHeader r.headers "location").getD ""
  let url := urljoinHttp cur.url loc
  let m :=
    if r.status = 303 ∧ cur.method ≠ "HEAD" then "GET"
    else if (r.status = 301 ∨ r.status = 302) ∧ cur.method = "POST" then "GET"
    else cur.method
  { cur with
    url := url
    method := m
    body := if m = cur.method then cur.body else "" }

/-- One `client.request` call with `follow_redirects=True`: `net` is the
network (one raw round trip).  `fuel` is the number of redirects still
allowed (httpx default 20). -/
def followRedirects (net : Req → Except TransportError Resp) :
    Nat → Req → Except TransportError Resp
  | fuel, req =>
    match net req with
    | .error e => .error e
    | .ok r =>
      if isRedirect r then
        match fuel with
        | 0 => .error { msg := "Exceeded maximum allowed redirects." }
        | fuel + 1 => followRedirects net fuel (redirectTarget req r)
      else .ok r

/-! ## The reverse-proxy dispatcher (`proxy`, src/app/main.py 230–268) -/

/-- The inbound request as the handler sees it: method, query params,
raw body, headers. -/
structure Inbound where
  method : String
  params : List (String × String)
  body : String
  headers : List (String × String)
deriving DecidableEq

/-- What the handler returns: an `HTTPException` (the 400 for a missing
published port), the `JSONResponse(status_code=502, ...)` for an
upstream transport failure, or the pass-through `Response`. -/
inductive ProxyResult where
  | httpError (status : Nat) (detail : String)
  | jsonError (status : Nat) (detail : String)
  | response (status : Nat) (headers : List (String × String))
      (mediaType : Option String) (body : String)
deriving DecidableEq

/-- The upstream request built on src/app/main.py lines 239–253:
URL from `urljoin(f"http://127.0.0.1:{host_port}/", path)`, method
uppercased, query params and body passed through, headers filtered. -/
def buildForwardReq (hostPort : Int) (path : String) (rq : Inbound) : Req :=
  { method := strUpper rq.method,
    url := urljoinHttp
      { scheme := "http", authority := "127.0.0.1:" ++ toString hostPort,
        rest := "/" } path,
    params := rq.params,
    body := rq.body,
    headers := filterHeaders rq.headers }

/-- The `proxy` handler (src/app/main.py lines 230–268), from the
descriptor the Registry View resolved for the container.  Python's
`if not host_port:` is falsy for both `None` and `0`. -/
def proxyHandler (info : Descriptor) (path : String) (rq : Inbound)
    (net : Req → Except TransportError Resp) : ProxyResult :=
  match info.host_port with
  | none => .httpError 400 "Container has no published port"
  | some p =>
    if p = 0 then .httpError 400 "Container has no published port"
    else
      match followRedirects net 20 (buildForwardReq p path rq) with
      | .error e => .jsonError 502 e.msg
      | .ok resp =>
        .response resp.status (filterHeaders resp.headers)
          (getHeader resp.headers "content-type") resp.body

/-! ## The readiness gate (`_wait_ready`, src/app/main.py 274–294)

Time is discrete, in tenths of a second, starting at 0 when the loop is
entered, so the fixed `asyncio.sleep(0.5)` is 5 ticks and the overall
deadline is `10 * timeout_sec` ticks.  Attempt `i` of the probe is
described by `att i = (outcome, duration)`: `outcome` is `some status`
when `client.get` returned a response and `none` when it raised
(connection failure or timeout), and `duration` is how many ticks the
attempt took (bounded by the per-attempt client timeout of 5 s, i.e. 50
ticks).  The loop body is: attempt; return on a 2xx; otherwise compare
the clock to the deadline and raise the 504 `HTTPException` if it has
passed; otherwise sleep 5 ticks and retry.  The recursion carries fuel;
`none` means only that the fuel ran out, and the theorems supply enough
fuel for the run to finish. -/

def ok2xx (res : Option Nat) : Bool :=
  match res with
  | some s => 200 ≤ s && s < 300
  | none => false

inductive WaitResult where
  | ready (t : Nat) (attempt : Nat)
  | timeout504 (t : Nat) (attemptsMade : Nat)
deriving DecidableEq

def waitReadyF (att : Nat → Option Nat × Nat) (deadline : Nat) :
    Nat → Nat → Nat → Option WaitResult
  | 0, _, _ => none
  | fuel + 1, t, i =>
    let a := att i
    let tEnd := t + a.2
    if ok2xx a.1 then some (.ready tEnd i)
    else if deadline ≤ tEnd then some (.timeout504 tEnd (i + 1))
    else waitReadyF att deadline fuel (tEnd + 5) (i + 1)

/-- The wall-clock tick at which attempt `i` starts: attempt 0 starts at
0, and each later attempt starts one sleep interval after the previous
attempt ended. -/
def attStart (att : Nat → Option Nat × Nat) : Nat → Nat
  | 0 => 0
  | i + 1 => attStart att i + (att i).2 + 5

/-- The wall-clock tick at which attempt `i` completes. -/
def attEnd (att : Nat → Option Nat × Nat) (i : Nat) : Nat :=
  attStart att i + (att i).2

/-! ## Volume-spec parsing (`_parse_volumes`, src/app/docker_service.py
lines 151–178) -/

/-- Python `item.rsplit(":", maxsplit=2)`: split on every colon, then
glue all but the last two segments back together. -/
def pyRsplit2 (s : String) : List String :=
  let ps := (splitOnChar ':' s.data).map String.mk
  if ps.length ≤ 3 then ps
  else
    String.intercalate ":" (ps.take (ps.length - 2)) :: ps.drop (ps.length - 2)

structure VolEntry where
  bind : String
  mode : String
deriving DecidableEq

/-- Python dict assignment `result[host] = {...}`: replace in place when
the key exists, append otherwise (insertion order preserved). -/
def dictInsert : List (String × VolEntry) → String → VolEntry →
    List (String × VolEntry)
  | [], k, v => [(k, v)]
  | (k1, v1) :: rest, k, v =>
    if k1 = k then (k, v) :: rest else (k1, v1) :: dictInsert rest k v

/-- Lines 174–176: `mode = (mode or "rw").lower()`, then anything
outside the set is replaced by `"rw"`. -/
def normalizeMode (mode : String) : String :=
  let m := strLower (if mode = "" then "rw" else mode)
  if m = "ro" ∨ m = "rw" then m else "rw"

/-- One iteration of the loop in `_parse_volumes`: fewer than two
segments is skipped (`continue`); two segments default the mode to
`"rw"`; three segments normalise the explicit mode. -/
def parseVolumeStep (acc : List (String × VolEntry)) (item : String) :
    List (String × VolEntry) :=
  match pyRsplit2 item with
  | [host, cont] => dictInsert acc host { bind := cont, mode := "rw" }
  | [host, cont, mode] => dictInsert acc host { bind := cont, mode := normalizeMode mode }
  | _ => acc

/-- `DockerService._parse_volumes`. -/
def parseVolumes (volumes : List String) : List (String × VolEntry) :=
  volumes.foldl parseVolumeStep []

/-! ## Concrete fixtures used by counterexamples and witnesses -/

/-- A record whose declared-service-port label resolves to a binding whose
HostPort value is not numeric. -/
def recBadHostPort : RawRecord :=
  { id := "c1"
    name := "web"
    image := some "nginx:latest"
    status := "running"
    labels := [("dockapi.container_port", "80")]
    ports := [("80/tcp", [{ hostPort := some "abc" }])] }

/-- A record with no service-port label at all. -/
def recNoLabel : RawRecord :=
  { id := "c2"
    name := "db"
    image := some "postgres:16"
    status := "running"
    labels := [("dockapi.managed", "true")]
    ports := [("5432/tcp", [{ hostPort := some "49153" }])] }

/-- A record whose service-port label points at a port with no binding. -/
def recNoBinding : RawRecord :=
  { id := "c3"
    name := "api"
    image := some "httpd"
    status := "exited"
    labels := [("dockapi.container_port", "80")]
    ports := [] }

/-- A record whose service-port label is the string "0" while a "0/tcp"
binding exists. -/
def recZeroLabel : RawRecord :=
  { id := "c4"
    name := "odd"
    image := some "busybox"
    status := "running"
    labels := [("dockapi.container_port", "0")]
    ports := [("0/tcp", [{ hostPort := some "9999" }])] }

/-- C1: the spec says an absent or unparsable service-port label yields a
descriptor with both ports absent, and that ANY parse or lookup failure while
resolving the host port — including a missing or non-numeric HostPort in the
binding table — yields an absent host_port rather than an error.  The code
refutes the second half: `int(bindings[0].get("HostPort"))` sits outside the
try/except, so on the record whose first "80/tcp" binding has HostPort "abc"
the method raises a ValueError instead of producing a descriptor. -/
theorem c1_counterexample :
    containerInfo recBadHostPort =
      .error "ValueError: invalid literal for int()" := by
  rfl

/-- C1 (amended): an absent or unparsable service-port label yields a
descriptor with container_port and host_port both absent, and a lookup that
finds no binding for the declared port yields an absent host_port; but when a
first binding is present whose HostPort is missing or non-numeric, the parse
error propagates out of the Registry View instead of degrading to an absent
host_port. -/
theorem c1_amended (r : RawRecord) :
    (parsedContainerPort r.labels = none →
      containerInfo r = .ok
        { id := r.id
          name := r.name
          image := r.image
          status := r.status
          labels := r.labels
          host_port := none
          container_port := none }) ∧
    (∀ n, parsedContainerPort r.labels = some n → n ≠ 0 →
      firstBinding r.ports (toString n ++ "/tcp") = none →
      containerInfo r = .ok
        { id := r.id
          name := r.name
          image := r.image
          status := r.status
          labels := r.labels
          host_port := none
          container_port := some n }) ∧
    (∀ n b, parsedContainerPort r.labels = some n → n ≠ 0 →
      firstBinding r.ports (toString n ++ "/tcp") = some b →
      (b.hostPort = none ∨ ∃ hs, b.hostPort = some hs ∧ pyInt hs = none) →
      ∃ msg, containerInfo r = .error msg) := by
  refine ⟨?_, ?_, ?_⟩
  · intro h
    simp [containerInfo, h, Except.map]
  · intro n hn hnz hb
    simp [containerInfo, hn, hnz, hb, Except.map]
  · intro n b hn hnz hb hbad
    rcases hbad with hb0 | ⟨hs, hhs, hp⟩
    · exact ⟨"TypeError: int() argument must not be None",
        by simp [containerInfo, hn, hnz, hb, hb0, Except.map]⟩
    · exact ⟨"ValueError: invalid literal for int()",
        by simp [containerInfo, hn, hnz, hb, hhs, hp, Except.map]⟩

theorem c1_amended_witness :
    (containerInfo recNoLabel = .ok
      { id := "c2"
        name := "db"
        image := some "postgres:16"
        status := "running"
        labels := [("dockapi.managed", "true")]
        host_port := none
        container_port := none }) ∧
    (containerInfo recNoBinding = .ok
      { id := "c3"
        name := "api"
        image := some "httpd"
        status := "exited"
        labels := [("dockapi.container_port", "80")]
        host_port := none
        container_port := some 80 }) ∧
    (∃ msg, containerInfo recBadHostPort = .error msg) :=
  ⟨(c1_amended recNoLabel).1 (by rfl),
   (c1_amended recNoBinding).2.1 80 (by rfl) (by decide) (by rfl),
   (c1_amended recBadHostPort).2.2 80 { hostPort := some "abc" } (by rfl)
     (by decide) (by rfl) (Or.inr ⟨"abc", rfl, by rfl⟩)⟩

/-- A descriptor whose container has no published host port. -/
def dNoPort : Descriptor :=
  { id := "c9"
    name := "x"
    image := some "httpd"
    status := "exited"
    labels := [("dockapi.container_port", "80")]
    host_port := none
    container_port := some 80 }

/-- A descriptor with host port 8080 published. -/
def d8080 : Descriptor :=
  { id := "c8"
    name := "web"
    image := some "nginx:latest"
    status := "running"
    labels := [("dockapi.container_port", "80")]
    host_port := some 8080
    container_port := some 80 }

/-- A bare inbound GET request. -/
def rqEmpty : Inbound :=
  { method := "GET", params := [], body := "", headers := [] }

/-- An upstream that refuses every connection. -/
def netRefused : Req → Except TransportError Resp :=
  fun _ => .error { msg := "All connection attempts failed" }

/-- C2: a forward call whose resolved descriptor has an absent host_port
fails with the 400-class "Container has no published port" HTTPException
(the NoPublishedPort error), and the result is the same for every possible
upstream client — no upstream connection is attempted; the client is
reached only on the branch where host_port is present (and nonzero). -/
theorem c2_no_published_port (d : Descriptor) (path : String) (rq : Inbound)
    (h : d.host_port = none) :
    ∀ net, proxyHandler d path rq net =
      .httpError 400 "Container has no published port" := by
  intro net
  simp [proxyHandler, h]

theorem c2_no_published_port_witness :
    proxyHandler dNoPort "status" rqEmpty netRefused =
      .httpError 400 "Container has no published port" :=
  c2_no_published_port dNoPort "status" rqEmpty rfl netRefused

/-- C3: when the upstream request fails with a transport error, the handler
returns the well-formed JSONResponse with status 502 whose detail is the
underlying error description; every client failure takes this branch and
the handler is a total function into ProxyResult, so the transport failure
never escapes the proxy handler as an unhandled fault. -/
theorem c3_transport_error_502 (d : Descriptor) (p : Int) (path : String)
    (rq : Inbound) (net : Req → Except TransportError Resp)
    (e : TransportError) (hp : d.host_port = some p) (hnz : p ≠ 0)
    (hfail : followRedirects net 20 (buildForwardReq p path rq) = .error e) :
    proxyHandler d path rq net = .jsonError 502 e.msg := by
  simp [proxyHandler, hp, hnz, hfail]

theorem c3_transport_error_502_witness :
    proxyHandler d8080 "status" rqEmpty netRefused =
      .jsonError 502 "All connection attempts failed" :=
  c3_transport_error_502 d8080 8080 "status" rqEmpty netRefused
    { msg := "All connection attempts failed" } rfl (by decide) rfl

/-- C5: the spec requires every forward to target loopback 127.0.0.1:<P>
for all subPath values, including subPaths that are absolute URLs or begin
with "//".  The code builds the upstream URL with urljoin, so a subPath
that is a network-path reference ("//evil.com/x") or an absolute URL
("http://evil.com/x") replaces the authority: the upstream request is sent
to evil.com, not to 127.0.0.1:8080.  Only plain relative subPaths keep the
loopback target. -/
theorem c5_urljoin_escapes_loopback :
    (buildForwardReq 8080 "//evil.com/x" rqEmpty).url.authority
      = "evil.com" ∧
    (buildForwardReq 8080 "http://evil.com/x" rqEmpty).url.authority
      = "evil.com" ∧
    (buildForwardReq 8080 "status" rqEmpty).url.authority
      = "127.0.0.1:8080" ∧
    ("evil.com" : String) ≠ "127.0.0.1:8080" :=
  ⟨rfl, rfl, rfl, by decide⟩

/-- C9 counterexample: at host_port = 0 the src/app implementation reserves
a fresh ephemeral port while the src/ root implementation uses the
caller-supplied 0, so the two run_container implementations do not select
the host port equivalently. -/
theorem c9_counterexample :
    selectHostPortApp (some 0) = .reserveFresh ∧
    selectHostPortRoot (some 0) = .useGiven 0 ∧
    PortChoice.reserveFresh ≠ PortChoice.useGiven 0 :=
  ⟨rfl, rfl, by decide⟩

/-- C9 (amended): the two run_container implementations select the host
port identically for every argument except some 0: both reserve a fresh
ephemeral port when the argument is absent, and both use the caller's port
when it is present and nonzero; at 0 only the src/app implementation
reserves a fresh port. -/
theorem c9_amended (hp : Option Int) (h : hp ≠ some 0) :
    selectHostPortApp hp = selectHostPortRoot hp := by
  cases hp with
  | none => rfl
  | some p =>
    have hnz : p ≠ 0 := fun h0 => h (by rw [h0])
    simp [selectHostPortApp, selectHostPortRoot, hnz]

theorem c9_amended_witness :
    selectHostPortApp (some 49153) = selectHostPortRoot (some 49153) :=
  c9_amended (some 49153) (by decide)

/-- C10: a record whose service-port label is the string "0" parses to
container_port 0, which is falsy under Python's `if container_port:`, so
the port-binding table is never consulted: the descriptor has
container_port 0 and host_port absent whatever the Ports table holds —
even when a "0/tcp" binding exists — and the result is invariant under
replacing the Ports table entirely. -/
theorem c10_zero_label (r : RawRecord) (ports2 : List (String × List Binding))
    (h : r.labels.lookup PORT_LABEL = some "0") :
    containerInfo r = .ok
      { id := r.id
        name := r.name
        image := r.image
        status := r.status
        labels := r.labels
        host_port := none
        container_port := some 0 } ∧
    containerInfo r = containerInfo { r with ports := ports2 } := by
  have hcp : parsedContainerPort r.labels = some 0 := by
    unfold parsedContainerPort
    rw [h]
    rfl
  have hcp2 : parsedContainerPort (RawRecord.labels { r with ports := ports2 })
      = some 0 := hcp
  constructor
  · simp [containerInfo, hcp, Except.map]
  · simp [containerInfo, hcp, hcp2, Except.map]

theorem c10_zero_label_witness :
    (containerInfo recZeroLabel = .ok
      { id := "c4"
        name := "odd"
        image := some "busybox"
        status := "running"
        labels := [("dockapi.container_port", "0")]
        host_port := none
        container_port := some 0 }) ∧
    containerInfo recZeroLabel = containerInfo { recZeroLabel with ports := [] } :=
  c10_zero_label recZeroLabel [] (by rfl)

/-- An upstream response: 303 See Other pointing at /b. -/
def respRedirect : Resp :=
  { status := 303, headers := [("location", "/b")], body := "" }

/-- An upstream response: 200 with a plain-text body. -/
def respFinal : Resp :=
  { status := 200, headers := [("content-type", "text/plain")], body := "hello" }

/-- An upstream whose /a endpoint answers 303 Location /b and whose other
endpoints answer 200 "hello". -/
def netRedirect : Req → Except TransportError Resp := fun r =>
  if r.url.rest = "/a" then .ok respRedirect else .ok respFinal

/-- An upstream that always answers 200 "hello". -/
def netPlain : Req → Except TransportError Resp := fun _ => .ok respFinal

/-- C4: the header filter removes exactly the pairs whose lowercased name
is in the fixed hop-by-hop set {connection, proxy-connection, keep-alive,
transfer-encoding, te, trailer, upgrade, host}, passes every other pair
through with its value unchanged, is idempotent, and is applied both to
the inbound request headers before forwarding and to the upstream response
headers before returning. -/
theorem c4_filter_headers :
    (∀ hs k v, (k, v) ∈ filterHeaders hs ↔
      ((k, v) ∈ hs ∧ hopByHop.contains (strLower k) = false)) ∧
    (∀ hs, filterHeaders (filterHeaders hs) = filterHeaders hs) ∧
    (∀ p path rq,
      (buildForwardReq p path rq).headers = filterHeaders rq.headers) ∧
    (∀ d p path rq net resp, d.host_port = some p → p ≠ 0 →
      followRedirects net 20 (buildForwardReq p path rq) = .ok resp →
      proxyHandler d path rq net =
        .response resp.status (filterHeaders resp.headers)
          (getHeader resp.headers "content-type") resp.body) := by
  refine ⟨?_, ?_, ?_, ?_⟩
  · intro hs k v
    simp [filterHeaders, List.mem_filter]
  · intro hs
    simp [filterHeaders, List.filter_filter]
  · intro p path rq
    rfl
  · intro d p path rq net resp hp hnz hok
    simp [proxyHandler, hp, hnz, hok]

theorem c4_filter_headers_witness :
    (("X-Custom", "v") ∈
      filterHeaders [("Connection", "close"), ("X-Custom", "v")]) ∧
    proxyHandler d8080 "status" rqEmpty netPlain =
      .response 200 [("content-type", "text/plain")] (some "text/plain")
        "hello" :=
  ⟨(c4_filter_headers.1 [("Connection", "close"), ("X-Custom", "v")]
      "X-Custom" "v").mpr ⟨by decide, by decide⟩,
   c4_filter_headers.2.2.2 d8080 8080 "status" rqEmpty netPlain respFinal
     rfl (by decide) rfl⟩

/-- C6 counterexample: the upstream answers the forwarded request with
status 303, but because the client is built with follow_redirects=True the
handler returns the post-redirect 200 response — the caller does not
receive the upstream's 3xx status and body verbatim. -/
theorem c6_counterexample :
    netRedirect (buildForwardReq 8080 "a" rqEmpty) = .ok respRedirect ∧
    respRedirect.status = 303 ∧
    proxyHandler d8080 "a" rqEmpty netRedirect =
      .response 200 [("content-type", "text/plain")] (some "text/plain")
        "hello" :=
  ⟨rfl, rfl, rfl⟩

/-- C6 (amended): the status, body and content-type returned to the caller
are exactly those of the final response delivered by the redirect-following
client; in particular, when the upstream's response to the forwarded
request is not a redirect it is returned verbatim, but a 3xx response
carrying a Location header is followed by the client rather than passed
through. -/
theorem c6_amended (d : Descriptor) (p : Int) (path : String) (rq : Inbound)
    (net : Req → Except TransportError Resp) (resp : Resp)
    (hp : d.host_port = some p) (hnz : p ≠ 0) :
    (followRedirects net 20 (buildForwardReq p path rq) = .ok resp →
      proxyHandler d path rq net =
        .response resp.status (filterHeaders resp.headers)
          (getHeader resp.headers "content-type") resp.body) ∧
    (net (buildForwardReq p path rq) = .ok resp → isRedirect resp = false →
      proxyHandler d path rq net =
        .response resp.status (filterHeaders resp.headers)
          (getHeader resp.headers "content-type") resp.body) := by
  constructor
  · intro hok
    simp [proxyHandler, hp, hnz, hok]
  · intro hnet hred
    have hok : followRedirects net 20 (buildForwardReq p path rq) = .ok resp := by
      simp [followRedirects, hnet, hred]
    simp [proxyHandler, hp, hnz, hok]

theorem c6_amended_witness :
    proxyHandler d8080 "status" rqEmpty netPlain =
      .response 200 [("content-type", "text/plain")] (some "text/plain")
        "hello" :=
  (c6_amended d8080 8080 "status" rqEmpty netPlain respFinal rfl
    (by decide)).2 rfl rfl

/-- Splitting a separator-free run appends it to the pending segment. -/
theorem splitOnCharAux_no_sep (sep : Char) :
    ∀ (cs acc : List Char), sep ∉ cs →
      splitOnCharAux sep cs acc = [acc.reverse ++ cs]
  | [], acc, _ => by simp [splitOnCharAux]
  | c :: cs, acc, h => by
    have hc : ¬ (c = sep) := fun hh => h (hh ▸ List.mem_cons_self c cs)
    rw [splitOnCharAux, if_neg hc,
      splitOnCharAux_no_sep sep cs (c :: acc)
        (fun hh => h (List.mem_cons_of_mem _ hh))]
    simp

/-- Members of a dict after one assignment come from the old dict or are
the assigned pair. -/
theorem dictInsert_mem :
    ∀ (m : List (String × VolEntry)) (k : String) (v : VolEntry)
      (h : String) (e : VolEntry),
      (h, e) ∈ dictInsert m k v → (h, e) ∈ m ∨ (h, e) = (k, v)
  | [], k, v, h, e, hm => by
    simp only [dictInsert, List.mem_singleton] at hm
    exact Or.inr hm
  | (k1, v1) :: rest, k, v, h, e, hm => by
    rw [dictInsert] at hm
    split at hm
    · rcases List.mem_cons.mp hm with h1 | h2
      · exact Or.inr h1
      · exact Or.inl (List.mem_cons_of_mem _ h2)
    · rcases List.mem_cons.mp hm with h1 | h2
      · exact Or.inl (by rw [h1]; exact List.mem_cons_self _ _)
      · rcases dictInsert_mem rest k v h e h2 with h3 | h4
        · exact Or.inl (List.mem_cons_of_mem _ h3)
        · exact Or.inr h4

/-- Closed form of the mode normalisation: lowercased "ro" survives,
everything else (including the omitted-mode empty string) becomes "rw". -/
theorem normalizeMode_eq (m : String) :
    normalizeMode m = if strLower m = "ro" then "ro" else "rw" := by
  by_cases h0 : m = ""
  · subst h0; rfl
  · unfold normalizeMode
    rw [if_neg h0]
    by_cases h1 : strLower m = "ro"
    · simp [h1]
    · by_cases h2 : strLower m = "rw"
      · simp [h1, h2]
      · simp [h1, h2]

/-- The normalised mode is always one of the two permitted tokens. -/
theorem normalizeMode_ro_or_rw (m : String) :
    normalizeMode m = "ro" ∨ normalizeMode m = "rw" := by
  rw [normalizeMode_eq]
  by_cases hr : strLower m = "ro"
  · simp [hr]
  · simp [hr]

/-- One parsing step keeps every entry mode in {"ro", "rw"}. -/
theorem parseVolumeStep_modes (acc : List (String × VolEntry)) (item : String)
    (hacc : ∀ h e, (h, e) ∈ acc → e.mode = "ro" ∨ e.mode = "rw") :
    ∀ h e, (h, e) ∈ parseVolumeStep acc item →
      e.mode = "ro" ∨ e.mode = "rw" := by
  intro h e hm
  unfold parseVolumeStep at hm
  split at hm
  · rcases dictInsert_mem _ _ _ _ _ hm with h1 | h2
    · exact hacc h e h1
    · simp only [Prod.mk.injEq] at h2
      rw [h2.2]
      exact Or.inr rfl
  · rcases dictInsert_mem _ _ _ _ _ hm with h1 | h2
    · exact hacc h e h1
    · simp only [Prod.mk.injEq] at h2
      rw [h2.2]
      exact normalizeMode_ro_or_rw _
  · exact hacc h e hm

/-- Folding the parser preserves the mode invariant. -/
theorem parseVolumes_modes :
    ∀ (vs : List String) (acc : List (String × VolEntry)),
      (∀ h e, (h, e) ∈ acc → e.mode = "ro" ∨ e.mode = "rw") →
      ∀ h e, (h, e) ∈ vs.foldl parseVolumeStep acc →
        e.mode = "ro" ∨ e.mode = "rw"
  | [], _, hacc, h, e, hm => hacc h e hm
  | item :: rest, acc, hacc, h, e, hm =>
    parseVolumes_modes rest (parseVolumeStep acc item)
      (parseVolumeStep_modes acc item hacc) h e hm

/-- A spec with no colon is a single-segment rsplit. -/
theorem pyRsplit2_no_colon (bad : String) (hbad : ':' ∉ bad.data) :
    pyRsplit2 bad = [bad] := by
  have h1 : splitOnChar ':' bad.data = [bad.data] := by
    simpa using splitOnCharAux_no_sep ':' bad.data [] hbad
  simp [pyRsplit2, h1]

/-- A colon-free spec is skipped by the loop body. -/
theorem parseVolumeStep_skip (acc : List (String × VolEntry)) (bad : String)
    (hbad : ':' ∉ bad.data) : parseVolumeStep acc bad = acc := by
  unfold parseVolumeStep
  rw [pyRsplit2_no_colon bad hbad]

/-- C8: _parse_volumes skips any spec containing no ":" separator (a
malformed single-segment spec) while still processing all remaining
specs, and every entry it produces has mode exactly "ro" or "rw": a
two-segment spec defaults the mode to "rw", and an explicit mode token is
lowercased with anything other than ro/rw replaced by "rw". -/
theorem c8_parse_volumes :
    (∀ pre post bad, ':' ∉ bad.data →
      parseVolumes (pre ++ bad :: post) = parseVolumes (pre ++ post)) ∧
    (∀ vs h e, (h, e) ∈ parseVolumes vs →
      e.mode = "ro" ∨ e.mode = "rw") ∧
    (∀ acc item host cont, pyRsplit2 item = [host, cont] →
      parseVolumeStep acc item =
        dictInsert acc host { bind := cont, mode := "rw" }) ∧
    (∀ acc item host cont m, pyRsplit2 item = [host, cont, m] →
      parseVolumeStep acc item =
        dictInsert acc host { bind := cont, mode := normalizeMode m }) ∧
    (∀ m, normalizeMode m = if strLower m = "ro" then "ro" else "rw") := by
  refine ⟨?_, ?_, ?_, ?_, normalizeMode_eq⟩
  · intro pre post bad hbad
    unfold parseVolumes
    rw [List.foldl_append, List.foldl_append, List.foldl_cons,
      parseVolumeStep_skip _ bad hbad]
  · intro vs h e hm
    exact parseVolumes_modes vs [] (by simp) h e hm
  · intro acc item host cont hsplit
    unfold parseVolumeStep
    rw [hsplit]
  · intro acc item host cont m hsplit
    unfold parseVolumeStep
    rw [hsplit]

theorem c8_parse_volumes_witness :
    parseVolumes ["C:/data:/data:ro", "bad", "/h:/c"] =
      parseVolumes ["C:/data:/data:ro", "/h:/c"] ∧
    (VolEntry.mode { bind := "/data", mode := "ro" } = "ro" ∨
     VolEntry.mode { bind := "/data", mode := "ro" } = "rw") :=
  ⟨c8_parse_volumes.1 ["C:/data:/data:ro"] ["/h:/c"] "bad" (by decide),
   c8_parse_volumes.2.1 ["C:/data:/data:ro"] "C:/data"
     { bind := "/data", mode := "ro" } (by decide)⟩

/-- One unfolding of the readiness loop: attempt, return on 2xx, raise
once the clock has reached the deadline, otherwise sleep 5 ticks. -/
theorem waitReadyF_succ (att : Nat → Option Nat × Nat) (d fuel t i : Nat) :
    waitReadyF att d (fuel + 1) t i =
      if ok2xx (att i).1 then some (.ready (t + (att i).2) i)
      else if d ≤ t + (att i).2 then
        some (.timeout504 (t + (att i).2) (i + 1))
      else waitReadyF att d fuel (t + (att i).2 + 5) (i + 1) := rfl

/-- Running the loop from the start, past i attempts that all failed
before the deadline, lands at attempt i with the clock at its start
time. -/
theorem waitReadyF_run (att : Nat → Option Nat × Nat) (d : Nat) :
    ∀ (i fuel : Nat),
      (∀ j, j < i → ok2xx (att j).1 = false ∧ attEnd att j < d) →
      waitReadyF att d (i + fuel) 0 0 =
        waitReadyF att d fuel (attStart att i) i := by
  intro i
  induction i with
  | zero =>
    intro fuel _
    rw [Nat.zero_add]
    rfl
  | succ n ih =>
    intro fuel h
    have h1 := ih (fuel + 1) (fun j hj => h j (Nat.lt_succ_of_lt hj))
    have e : n + 1 + fuel = n + (fuel + 1) := by omega
    rw [e, h1, waitReadyF_succ]
    have hn := h n (Nat.lt_succ_self n)
    have hfail : ¬ (ok2xx (att n).1 = true) := by simp [hn.1]
    have hlt : ¬ (d ≤ attStart att n + (att n).2) := by
      have h2 := hn.2
      unfold attEnd at h2
      omega
    rw [if_neg hfail, if_neg hlt]
    rfl

/-- Probe outcomes: attempt 0 answers 500 instantly; every later attempt
times out after consuming the full 5-second per-attempt budget (50
ticks). -/
def attSlow : Nat → Option Nat × Nat :=
  fun i => if i = 0 then (some 500, 0) else (none, 50)

/-- Probe outcomes: two quick connection failures (0.2 s each), then a
204 after 0.1 s. -/
def attQuick : Nat → Option Nat × Nat :=
  fun i => if i = 2 then (some 204, 1) else (none, 2)

/-- C7 counterexample: with a 1-second deadline (10 ticks), one instant
failed attempt, a 0.5 s sleep and a 5 s in-flight attempt make the gate
raise its 504 only at tick 55 = 5.5 s — far more than one 0.5 s poll
interval past the deadline, refuting "fails at approximately the
configured deadline (within one poll interval)". -/
theorem c7_counterexample :
    waitReadyF attSlow 10 30 0 0 = some (.timeout504 55 2) ∧
    ¬ (55 ≤ 10 + 5) :=
  ⟨rfl, by omega⟩

/-- C7 (amended): the readiness gate returns success at the first attempt
that yields a status in [200,300) (even if that attempt ends past the
deadline); each failed attempt is followed by a fixed 0.5 s wait before
the next attempt starts; and when no attempt succeeds it raises the 504
at the end of the first attempt completing at or past the deadline — so
at least one attempt is always made, the raise is never before the
deadline, and (with the code's 5 s per-attempt timeout, i.e. per-attempt
durations of at most 50 ticks) it comes within one poll interval plus one
per-attempt timeout of the deadline, rather than within one poll interval
as claimed. -/
theorem c7_amended (att : Nat → Option Nat × Nat) (d : Nat) :
    (∀ i fuel,
      (∀ j, j < i → ok2xx (att j).1 = false ∧ attEnd att j < d) →
      ok2xx (att i).1 = true →
      waitReadyF att d (i + (fuel + 1)) 0 0 =
        some (.ready (attEnd att i) i)) ∧
    (∀ j, attStart att (j + 1) = attEnd att j + 5) ∧
    (∀ i fuel,
      (∀ j, j < i → ok2xx (att j).1 = false ∧ attEnd att j < d) →
      ok2xx (att i).1 = false → d ≤ attEnd att i →
      waitReadyF att d (i + (fuel + 1)) 0 0 =
        some (.timeout504 (attEnd att i) (i + 1))) ∧
    (∀ i, (∀ j, j < i → attEnd att j < d) → (∀ j, (att j).2 ≤ 50) →
      attEnd att i ≤ d + 55) := by
  refine ⟨?_, fun j => rfl, ?_, ?_⟩
  · intro i fuel h hok
    rw [waitReadyF_run att d i (fuel + 1) h, waitReadyF_succ, if_pos hok]
    rfl
  · intro i fuel h hfail hd
    unfold attEnd at hd
    rw [waitReadyF_run att d i (fuel + 1) h, waitReadyF_succ,
      if_neg (by simp [hfail]), if_pos hd]
    rfl
  · intro i hlt hcap
    cases i with
    | zero =>
      have h0 := hcap 0
      unfold attEnd attStart
      omega
    | succ n =>
      have h1 : attEnd att n < d := hlt n (Nat.lt_succ_self n)
      have h2 := hcap (n + 1)
      unfold attEnd at h1
      unfold attEnd attStart
      omega

theorem c7_amended_witness :
    waitReadyF attQuick 600 3 0 0 = some (.ready 15 2) ∧
    attStart attQuick 1 = attEnd attQuick 0 + 5 ∧
    waitReadyF attSlow 10 3 0 0 = some (.timeout504 55 2) ∧
    attEnd attSlow 1 ≤ 10 + 55 :=
  ⟨(c7_amended attQuick 600).1 2 0 (by decide) (by decide),
   (c7_amended attQuick 600).2.1 0,
   (c7_amended attSlow 10).2.2.1 1 1 (by decide) (by decide) (by decide),
   (c7_amended attSlow 10).2.2.2 1 (by decide)
     (fun j => by by_cases hj : j = 0 <;> simp [attSlow, hj])⟩
